import Mathlib

/-!
Shallow embedding of `main.py` from godotdec-forked: a CTEX container
converter.  Files are byte lists; the filesystem effects of a single
conversion (open, mkdir, write) are modelled by an explicit oracle
`FSInput`, and the write that a conversion performs is returned as data.
-/

namespace Godotdec

/-- Result triple of `convert_ctex_to_image`: `(success, output_path, error_message)`. -/
structure ConvResult where
  success : Bool
  output_path : String
  message : String
deriving DecidableEq, Repr

/-- Outcomes of the I/O operations a single conversion performs:
opening the input file (yielding its bytes), creating the output
directory, and writing the output file.  An `Except.error` models the
Python call raising an exception whose text is the carried string. -/
structure FSInput where
  openResult : Except String (List Nat)
  mkdirResult : Except String Unit
  writeResult : Except String Unit

/-- A `pathlib.Path`-like value, split into the parent directory and the
final component (`name`). -/
structure PyPath where
  parent : String
  name : String

/-- The write a successful conversion performs: the directory whose
creation was ensured (`mkdir(parents=True, exist_ok=True)`), the output
file path and the bytes written. -/
structure WriteEff where
  mkdirDir : String
  path : String
  data : List Nat
deriving DecidableEq, Repr

/-- `Path.__truediv__` / `os.path.join` on POSIX: `d / n` renders as `d ++ "/" ++ n`. -/
def joinPath (d n : String) : String := d ++ "/" ++ n

/-- Index of the last `'.'` in a character list, if any. -/
def lastDot (cs : List Char) : Option Nat :=
  match cs.reverse.findIdx? (· = '.') with
  | none => none
  | some j => some (cs.length - 1 - j)

/-- `pathlib.PurePath.stem`: the final component without its suffix.  The
suffix is everything from the last dot on, provided that dot is neither
the first nor the last character. -/
def stemOf (name : String) : String :=
  let cs := name.data
  match lastDot cs with
  | none => name
  | some i => if 0 < i ∧ i < cs.length - 1 then ⟨cs.take i⟩ else name

/-- `struct.unpack('<I', b)[0]` for a 4-byte buffer: unsigned 32-bit
little-endian decoding. -/
def le32 (bs : List Nat) : Nat :=
  match bs with
  | [b0, b1, b2, b3] => b0 + 256 * b1 + 65536 * b2 + 16777216 * b3
  | _ => 0

/-- `format_map.get(format_type, f'.format{format_type}')`: extension
chosen from the format tag. -/
def format_map (t : Nat) : String :=
  match t with
  | 0 => ".unknown"
  | 1 => ".png"
  | 2 => ".webp"
  | 3 => ".basis"
  | _ => ".format" ++ toString t

/-- The success-message name table, with default `UNKNOWN(tag)`. -/
def format_name (t : Nat) : String :=
  match t with
  | 0 => "IMAGE"
  | 1 => "PNG"
  | 2 => "WEBP"
  | 3 => "BASIS_UNIVERSAL"
  | _ => "UNKNOWN(" ++ toString t ++ ")"

/-- The 4 bytes `f.read(4)` yields after `f.seek(36)`. -/
def readFormatBytes (content : List Nat) : List Nat :=
  (content.drop 36).take 4

/-- The directory the output file lands in: `Path(output_dir) / ...` when
`if output_dir:` is truthy (non-`None` and non-empty), else
`ctex_file.parent / ...`. -/
def output_dir_of (ctexPath : PyPath) (output_dir : Option String) : String :=
  match output_dir with
  | some d => if d = "" then ctexPath.parent else d
  | none => ctexPath.parent

/-- `output_path`: the chosen directory joined with `ctex_file.stem + ext`. -/
def output_path_of (ctexPath : PyPath) (output_dir : Option String) (ext : String) : String :=
  joinPath (output_dir_of ctexPath output_dir) (stemOf ctexPath.name ++ ext)

/-- The body of the `try:` block of `convert_ctex_to_image`, step by
step; `Except.error e` is an uncaught exception with text `e`.  Early
`return` statements of the Python body are `Except.ok` results. -/
def convertBody (ctexPath : PyPath) (output_dir : Option String) (fs : FSInput) :
    Except String (ConvResult × Option WriteEff) :=
  match fs.openResult with
  | .error e => .error e
  | .ok content =>
    let file_size := content.length
    if file_size < 56 then
      .ok (⟨false, "", "File too small (" ++ toString file_size ++
            " bytes), minimum 56 bytes required"⟩, none)
    else
      let format_bytes := readFormatBytes content
      if format_bytes.length < 4 then
        .ok (⟨false, "", "Failed to read format information"⟩, none)
      else
        let format_type := le32 format_bytes
        let image_data := content.drop 56
        if image_data.isEmpty then
          .ok (⟨false, "", "No image data found after header"⟩, none)
        else
          let ext := format_map format_type
          -- `if output_dir:` — Python truthiness: an empty string is falsy,
          -- so it falls through to the input file's parent directory.
          let outDir := output_dir_of ctexPath output_dir
          let output_path := output_path_of ctexPath output_dir ext
          match fs.mkdirResult with
          | .error e => .error e
          | .ok _ =>
            match fs.writeResult with
            | .error e => .error e
            | .ok _ =>
              .ok (⟨true, output_path,
                    "Format: " ++ format_name format_type ++ ", Size: " ++
                    toString image_data.length ++ " bytes"⟩,
                   some ⟨outDir, output_path, image_data⟩)

/-- `convert_ctex_to_image`: the body wrapped in
`except Exception as e: return False, "", f"Error processing file: {e}"`. -/
def convert_ctex_to_image (ctexPath : PyPath) (output_dir : Option String)
    (fs : FSInput) : ConvResult × Option WriteEff :=
  match convertBody ctexPath output_dir fs with
  | .ok r => r
  | .error e => (⟨false, "", "Error processing file: " ++ e⟩, none)

/-- A filesystem state mapping paths to file contents; `open(path,'wb')`
followed by `write` replaces whatever was at the path. -/
def applyWrite (σ : String → Option (List Nat)) :
    Option WriteEff → String → Option (List Nat)
  | none => σ
  | some w => fun q => if q = w.path then some w.data else σ q

/-- A directory tree as `os.walk` sees it: the entries of a directory are
its plain files (by name) and its named subdirectories, in listing order. -/
inductive Dir : Type where
  | node : (files : List String) → (subdirs : List (String × Dir)) → Dir
deriving Repr

/-- `str.lower()` (restricted to the ASCII letters, which is all the
`.ctex` comparison ever looks at). -/
def pyLower (s : String) : String := ⟨s.data.map Char.toLower⟩

/-- `str.endswith(suffix)`. -/
def pyEndsWith (s suffix : String) : Bool := suffix.data.isSuffixOf s.data

/-- `find_ctex_files`: walk the tree top-down, and for each directory
append `os.path.join(root, file)` for every file whose lowercased name
ends with `.ctex`. -/
def find_ctex_files (root : String) : Dir → List String
  | .node files subdirs =>
    (files.filter (fun f => pyEndsWith (pyLower f) ".ctex")).map
      (fun f => joinPath root f) ++
    (subdirs.attach.map (fun x =>
      match x with
      | ⟨(n, d), _⟩ => find_ctex_files (joinPath root n) d)).flatten
termination_by d => sizeOf d
decreasing_by
  rename_i h
  have h1 := List.sizeOf_lt_of_mem h
  simp only [Prod.mk.sizeOf_spec] at h1
  simp
  omega

/-- The full `os.walk` traversal: every `(containing directory, file
name)` pair of the tree, in the same top-down order `find_ctex_files`
visits them. -/
def walk_entries (root : String) : Dir → List (String × String)
  | .node files subdirs =>
    files.map (fun f => (root, f)) ++
    (subdirs.attach.map (fun x =>
      match x with
      | ⟨(n, d), _⟩ => walk_entries (joinPath root n) d)).flatten
termination_by d => sizeOf d
decreasing_by
  rename_i h
  have h1 := List.sizeOf_lt_of_mem h
  simp only [Prod.mk.sizeOf_spec] at h1
  simp
  omega

/-! ### Shared lemmas: branch characterizations of `convert_ctex_to_image` -/

theorem convert_eq_too_small (p : PyPath) (d : Option String) (fs : FSInput)
    (content : List Nat) (hopen : fs.openResult = .ok content)
    (hlen : content.length < 56) :
    convert_ctex_to_image p d fs =
      (⟨false, "", "File too small (" ++ toString content.length ++
        " bytes), minimum 56 bytes required"⟩, none) := by
  simp [convert_ctex_to_image, convertBody, hopen, hlen]

theorem convert_eq_empty_payload (p : PyPath) (d : Option String) (fs : FSInput)
    (content : List Nat) (hopen : fs.openResult = .ok content)
    (hlen : content.length = 56) :
    convert_ctex_to_image p d fs =
      (⟨false, "", "No image data found after header"⟩, none) := by
  have h1 : ¬ content.length < 56 := by omega
  have h2 : ¬ (readFormatBytes content).length < 4 := by
    simp [readFormatBytes]; omega
  have h3 : (content.drop 56).isEmpty := by
    simp [List.isEmpty_iff, List.drop_eq_nil_iff]; omega
  simp [convert_ctex_to_image, convertBody, hopen, h1, h2, h3]

theorem convert_eq_of_success (p : PyPath) (d : Option String) (fs : FSInput)
    (content : List Nat) (hopen : fs.openResult = .ok content)
    (hlen : 56 < content.length) (hmk : fs.mkdirResult = .ok ())
    (hwr : fs.writeResult = .ok ()) :
    convert_ctex_to_image p d fs =
      (⟨true, output_path_of p d (format_map (le32 (readFormatBytes content))),
        "Format: " ++ format_name (le32 (readFormatBytes content)) ++ ", Size: " ++
          toString (content.drop 56).length ++ " bytes"⟩,
       some ⟨output_dir_of p d,
             output_path_of p d (format_map (le32 (readFormatBytes content))),
             content.drop 56⟩) := by
  have h1 : ¬ content.length < 56 := by omega
  have h2 : ¬ (readFormatBytes content).length < 4 := by
    simp [readFormatBytes]; omega
  have h3 : ¬ (content.drop 56).isEmpty := by
    simp [List.isEmpty_iff, List.drop_eq_nil_iff]; omega
  simp [convert_ctex_to_image, convertBody, hopen, h1, h2, h3, hmk, hwr]

theorem success_inv (p : PyPath) (d : Option String) (fs : FSInput)
    (hsucc : (convert_ctex_to_image p d fs).1.success = true) :
    ∃ content, fs.openResult = .ok content ∧ 56 < content.length ∧
      fs.mkdirResult = .ok () ∧ fs.writeResult = .ok () := by
  cases ho : fs.openResult with
  | error e => simp [convert_ctex_to_image, convertBody, ho] at hsucc
  | ok content =>
    by_cases h1 : content.length < 56
    · simp [convert_ctex_to_image, convertBody, ho, h1] at hsucc
    · have h2 : ¬ (readFormatBytes content).length < 4 := by
        simp [readFormatBytes]; omega
      by_cases h3 : (content.drop 56).isEmpty
      · simp [convert_ctex_to_image, convertBody, ho, h1, h2, h3] at hsucc
      · cases hm : fs.mkdirResult with
        | error e =>
          simp [convert_ctex_to_image, convertBody, ho, h1, h2, h3, hm] at hsucc
        | ok u =>
          cases hw : fs.writeResult with
          | error e =>
            simp [convert_ctex_to_image, convertBody, ho, h1, h2, h3, hm, hw] at hsucc
          | ok v =>
            cases u; cases v
            refine ⟨content, rfl, ?_, rfl, rfl⟩
            simp [List.isEmpty_iff, List.drop_eq_nil_iff] at h3
            omega

theorem write_inv (p : PyPath) (d : Option String) (fs : FSInput) (w : WriteEff)
    (hw : (convert_ctex_to_image p d fs).2 = some w) :
    ∃ content, fs.openResult = .ok content ∧ 56 < content.length ∧
      fs.mkdirResult = .ok () ∧ fs.writeResult = .ok () ∧
      w = ⟨output_dir_of p d,
           output_path_of p d (format_map (le32 (readFormatBytes content))),
           content.drop 56⟩ := by
  cases ho : fs.openResult with
  | error e => simp [convert_ctex_to_image, convertBody, ho] at hw
  | ok content =>
    by_cases h1 : content.length < 56
    · simp [convert_ctex_to_image, convertBody, ho, h1] at hw
    · have h2 : ¬ (readFormatBytes content).length < 4 := by
        simp [readFormatBytes]; omega
      by_cases h3 : (content.drop 56).isEmpty
      · simp [convert_ctex_to_image, convertBody, ho, h1, h2, h3] at hw
      · cases hm : fs.mkdirResult with
        | error e =>
          simp [convert_ctex_to_image, convertBody, ho, h1, h2, h3, hm] at hw
        | ok u =>
          cases hw2 : fs.writeResult with
          | error e =>
            simp [convert_ctex_to_image, convertBody, ho, h1, h2, h3, hm, hw2] at hw
          | ok v =>
            cases u; cases v
            have hlen : 56 < content.length := by
              simp [List.isEmpty_iff, List.drop_eq_nil_iff] at h3
              omega
            rw [convert_eq_of_success p d fs content ho hlen hm hw2] at hw
            exact ⟨content, rfl, hlen, rfl, rfl, (Option.some.injEq _ _ ▸ hw).symm⟩

/-! ### Shared lemmas: string disequalities -/

theorem ne_of_take (s t : String) (n : Nat)
    (h : s.data.take n ≠ t.data.take n) : s ≠ t := by
  intro he; exact h (he ▸ rfl)

theorem ne_empty_of_take1 (s : String) (c : Char) (h : s.data.take 1 = [c]) :
    s ≠ "" := by
  intro he; rw [he] at h; simp at h

theorem err_ne_failed (s : String) :
    ("Error processing file: " ++ s) ≠ "Failed to read format information" := by
  apply ne_of_take _ _ 1
  show (['E'] : List Char) ≠ _
  decide

theorem joinPath_ne_empty (d n : String) : joinPath d n ≠ "" := by
  intro h
  have h1 := congrArg (fun z => z.data.length) h
  simp [joinPath] at h1

theorem format_ne_known (s : String) :
    (".format" ++ s) ≠ ".unknown" ∧ (".format" ++ s) ≠ ".png" ∧
    (".format" ++ s) ≠ ".webp" ∧ (".format" ++ s) ≠ ".basis" := by
  refine ⟨ne_of_take _ _ 2 ?_, ne_of_take _ _ 2 ?_,
          ne_of_take _ _ 2 ?_, ne_of_take _ _ 2 ?_⟩ <;>
    · show (['.', 'f'] : List Char) ≠ _
      decide

theorem format_map_ge4 (t : Nat) (ht : 4 ≤ t) :
    format_map t = ".format" ++ toString t := by
  match t, ht with
  | (t + 4), _ => rfl

/-- The discovery walk, by strong induction on the tree size: collecting
the matching files during the walk is the same as walking everything and
filtering afterwards. -/
theorem find_eq_filter_aux (n : Nat) : ∀ (d : Dir), sizeOf d ≤ n → ∀ root,
    find_ctex_files root d =
      ((walk_entries root d).filter (fun e => pyEndsWith (pyLower e.2) ".ctex")).map
        (fun e => joinPath e.1 e.2) := by
  induction n with
  | zero =>
    intro d h
    exfalso
    cases d with
    | node files subdirs => simp at h
  | succ n ih =>
    intro d h root
    cases d with
    | node files subdirs =>
      rw [find_ctex_files, walk_entries]
      rw [List.filter_append, List.map_append]
      congr 1
      · rw [List.filter_map]
        have hpred : ((fun e => pyEndsWith (pyLower e.2) ".ctex") ∘ fun f : String => (root, f)) =
            fun f => pyEndsWith (pyLower f) ".ctex" := rfl
        have hfun : ((fun e => joinPath e.1 e.2) ∘ fun f : String => (root, f)) =
            fun f => joinPath root f := rfl
        rw [hpred, List.map_map, hfun]
      · rw [List.filter_flatten, List.map_flatten, List.map_map, List.map_map]
        congr 1
        apply List.map_congr_left
        intro x hx
        obtain ⟨⟨nm, d2⟩, hmem⟩ := x
        have hs := List.sizeOf_lt_of_mem hmem
        simp only [Prod.mk.sizeOf_spec] at hs
        have hnode : sizeOf (Dir.node files subdirs) = 1 + sizeOf files + sizeOf subdirs := by
          simp
        have hd : sizeOf d2 ≤ n := by omega
        simpa using ih d2 hd (joinPath root nm)

end Godotdec
namespace Godotdec

/-- C1: for a container of length at least 56 on which conversion
succeeds, the bytes written to the output file are exactly the input's
bytes from offset 56 to end of file, byte for byte and with the same
length. -/
theorem payload_copied_verbatim (p : PyPath) (d : Option String) (fs : FSInput)
    (content : List Nat) (hopen : fs.openResult = .ok content)
    (hlen : 56 ≤ content.length)
    (hsucc : (convert_ctex_to_image p d fs).1.success = true) :
    ∃ w, (convert_ctex_to_image p d fs).2 = some w ∧
      w.data = content.drop 56 ∧
      w.data.length = content.length - 56 := by
  obtain ⟨c2, ho2, hl2, hm2, hw2⟩ := success_inv p d fs hsucc
  rw [hopen] at ho2
  injection ho2 with hc
  subst hc
  rw [convert_eq_of_success p d fs content hopen hl2 hm2 hw2]
  exact ⟨_, rfl, rfl, by simp⟩

theorem payload_copied_verbatim_witness :
    ∃ w, (convert_ctex_to_image ⟨"dir", "f.ctex"⟩ none
        ⟨.ok (List.replicate 56 0 ++ [9, 8, 7]), .ok (), .ok ()⟩).2 = some w ∧
      w.data = (List.replicate 56 0 ++ [9, 8, 7]).drop 56 ∧
      w.data.length = (List.replicate 56 0 ++ [9, 8, 7]).length - 56 :=
  payload_copied_verbatim _ _ _ _ rfl (by decide) (by decide)

/-- C2: an input strictly shorter than 56 bytes fails with a message
reporting the actual size and the 56-byte minimum, and nothing is
written. -/
theorem too_small_fails_and_reports_size (p : PyPath) (d : Option String)
    (fs : FSInput) (content : List Nat) (hopen : fs.openResult = .ok content)
    (hlen : content.length < 56) :
    convert_ctex_to_image p d fs =
      (⟨false, "", "File too small (" ++ toString content.length ++
        " bytes), minimum 56 bytes required"⟩, none) :=
  convert_eq_too_small p d fs content hopen hlen

theorem too_small_fails_and_reports_size_witness :
    convert_ctex_to_image ⟨"dir", "f.ctex"⟩ none ⟨.ok [1, 2, 3], .ok (), .ok ()⟩ =
      (⟨false, "", "File too small (3 bytes), minimum 56 bytes required"⟩, none) :=
  too_small_fails_and_reports_size _ _ _ [1, 2, 3] rfl (by decide)

/-- C4: for every input path, optional output directory and filesystem
behaviour, the converter returns a structured result: a raised error `e`
from any I/O step is caught and turned into the failure triple
`(False, "", "Error processing file: " ++ e)`, and an un-raised body
result is returned as is. -/
theorem no_exception_escapes (p : PyPath) (d : Option String) (fs : FSInput) :
    (∃ r, convertBody p d fs = .ok r ∧ convert_ctex_to_image p d fs = r) ∨
    (∃ e, convertBody p d fs = .error e ∧
      convert_ctex_to_image p d fs =
        (⟨false, "", "Error processing file: " ++ e⟩, none)) := by
  cases h : convertBody p d fs with
  | ok r => exact .inl ⟨r, rfl, by simp [convert_ctex_to_image, h]⟩
  | error e => exact .inr ⟨e, rfl, by simp [convert_ctex_to_image, h]⟩

/-- C5: a 56-byte input (header only) fails with the no-image-data
message and nothing is written. -/
theorem header_only_fails_no_write (p : PyPath) (d : Option String)
    (fs : FSInput) (content : List Nat) (hopen : fs.openResult = .ok content)
    (hlen : content.length = 56) :
    convert_ctex_to_image p d fs =
      (⟨false, "", "No image data found after header"⟩, none) :=
  convert_eq_empty_payload p d fs content hopen hlen

theorem header_only_fails_no_write_witness :
    convert_ctex_to_image ⟨"dir", "f.ctex"⟩ none
        ⟨.ok (List.replicate 56 0), .ok (), .ok ()⟩ =
      (⟨false, "", "No image data found after header"⟩, none) :=
  header_only_fails_no_write _ _ _ (List.replicate 56 0) rfl (by decide)

/-- C8: re-running the converter on the same unchanged input repeats the
same single write, so applying the second run's write after the first
leaves the output filesystem state unchanged (pure overwrite, no
accumulation). -/
theorem second_run_overwrites_identically (p : PyPath) (d : Option String)
    (fs : FSInput) (σ : String → Option (List Nat)) :
    applyWrite (applyWrite σ (convert_ctex_to_image p d fs).2)
        (convert_ctex_to_image p d fs).2 =
      applyWrite σ (convert_ctex_to_image p d fs).2 := by
  cases h : (convert_ctex_to_image p d fs).2 with
  | none => rfl
  | some w =>
    funext q
    by_cases hq : q = w.path <;> simp [applyWrite, hq]

end Godotdec
namespace Godotdec

/-- C3: the format tag is the unsigned 32-bit little-endian decoding of
bytes 36..39; the extension table maps 0/1/2/3 to the four known
extensions, every other tag yields an extension embedding the tag value
and never one of the known extensions; a performed write's path carries
the extension of the tag decoded from the input. -/
theorem format_tag_decode_and_extension_table (b0 b1 b2 b3 t : Nat)
    (ht : t ∉ ([0, 1, 2, 3] : List Nat)) (p : PyPath) (d : Option String)
    (fs : FSInput) (content : List Nat) (hopen : fs.openResult = .ok content)
    (w : WriteEff) (hw : (convert_ctex_to_image p d fs).2 = some w) :
    le32 [b0, b1, b2, b3] = b0 + 256 * b1 + 65536 * b2 + 16777216 * b3 ∧
    format_map 0 = ".unknown" ∧ format_map 1 = ".png" ∧
    format_map 2 = ".webp" ∧ format_map 3 = ".basis" ∧
    format_map t = ".format" ++ toString t ∧
    format_map t ≠ ".unknown" ∧ format_map t ≠ ".png" ∧
    format_map t ≠ ".webp" ∧ format_map t ≠ ".basis" ∧
    w.path = joinPath (output_dir_of p d)
      (stemOf p.name ++ format_map (le32 (readFormatBytes content))) := by
  have h4 : 4 ≤ t := by simp at ht; omega
  have hmap := format_map_ge4 t h4
  obtain ⟨c2, ho2, hl2, hm2, hw2, hweq⟩ := write_inv p d fs w hw
  rw [hopen] at ho2
  injection ho2 with hc
  subst hc
  have hne := format_ne_known (toString t)
  refine ⟨rfl, rfl, rfl, rfl, rfl, hmap, ?_, ?_, ?_, ?_, ?_⟩
  · rw [hmap]; exact hne.1
  · rw [hmap]; exact hne.2.1
  · rw [hmap]; exact hne.2.2.1
  · rw [hmap]; exact hne.2.2.2
  · rw [hweq]; rfl

theorem format_tag_decode_and_extension_table_witness :
    le32 [1, 0, 0, 0] = 1 + 256 * 0 + 65536 * 0 + 16777216 * 0 ∧
    format_map 0 = ".unknown" ∧ format_map 1 = ".png" ∧
    format_map 2 = ".webp" ∧ format_map 3 = ".basis" ∧
    format_map 7 = ".format" ++ toString 7 ∧
    format_map 7 ≠ ".unknown" ∧ format_map 7 ≠ ".png" ∧
    format_map 7 ≠ ".webp" ∧ format_map 7 ≠ ".basis" ∧
    (⟨"dir", "dir/f.format7", [5]⟩ : WriteEff).path =
      joinPath (output_dir_of ⟨"dir", "f.ctex"⟩ none)
        (stemOf (PyPath.name ⟨"dir", "f.ctex"⟩) ++
          format_map (le32 (readFormatBytes
            (List.replicate 36 0 ++ [7, 0, 0, 0] ++ List.replicate 16 0 ++ [5])))) :=
  format_tag_decode_and_extension_table 1 0 0 0 7 (by decide)
    ⟨"dir", "f.ctex"⟩ none
    ⟨.ok (List.replicate 36 0 ++ [7, 0, 0, 0] ++ List.replicate 16 0 ++ [5]), .ok (), .ok ()⟩
    _ rfl _ (by decide)

/-- C9: with at least 56 bytes in the input, the 4-byte format read is
always complete, so the defensive failed-to-read-format branch cannot
produce the conversion's result. -/
theorem format_read_guard_unreachable (p : PyPath) (d : Option String)
    (fs : FSInput) (content : List Nat) (hopen : fs.openResult = .ok content)
    (hlen : 56 ≤ content.length) :
    (readFormatBytes content).length = 4 ∧
    (convert_ctex_to_image p d fs).1 ≠
      ⟨false, "", "Failed to read format information"⟩ := by
  have hfb : (readFormatBytes content).length = 4 := by
    simp [readFormatBytes]; omega
  refine ⟨hfb, ?_⟩
  have h1 : ¬ content.length < 56 := by omega
  have h2 : ¬ (readFormatBytes content).length < 4 := by omega
  by_cases h3 : (content.drop 56).isEmpty
  · have hl56 : content.length = 56 := by
      simp [List.isEmpty_iff, List.drop_eq_nil_iff] at h3
      omega
    rw [convert_eq_empty_payload p d fs content hopen hl56]
    intro he
    simp [ConvResult.mk.injEq] at he
  · cases hm : fs.mkdirResult with
    | error e =>
      simp [convert_ctex_to_image, convertBody, hopen, h1, h2, h3, hm,
        err_ne_failed e]
    | ok u =>
      cases hw : fs.writeResult with
      | error e =>
        simp [convert_ctex_to_image, convertBody, hopen, h1, h2, h3, hm, hw,
          err_ne_failed e]
      | ok v =>
        cases u; cases v
        have hlen2 : 56 < content.length := by
          simp [List.isEmpty_iff, List.drop_eq_nil_iff] at h3
          omega
        rw [convert_eq_of_success p d fs content hopen hlen2 hm hw]
        intro he
        simp [ConvResult.mk.injEq] at he

theorem format_read_guard_unreachable_witness :
    (readFormatBytes (List.replicate 57 0)).length = 4 ∧
    (convert_ctex_to_image ⟨"dir", "f.ctex"⟩ none
        ⟨.ok (List.replicate 57 0), .ok (), .ok ()⟩).1 ≠
      ⟨false, "", "Failed to read format information"⟩ :=
  format_read_guard_unreachable _ _ _ (List.replicate 57 0) rfl (by decide)

end Godotdec
namespace Godotdec

/-- C6 counterexample: with the override directory supplied as the empty
string, conversion succeeds but the output is placed in the input's
parent directory, not in the supplied override directory (Python's
`if output_dir:` treats `""` as absent). -/
theorem empty_override_counterexample :
    (convert_ctex_to_image ⟨"indir", "f.ctex"⟩ (some "")
        ⟨.ok (List.replicate 57 0), .ok (), .ok ()⟩).1.success = true ∧
    (convert_ctex_to_image ⟨"indir", "f.ctex"⟩ (some "")
        ⟨.ok (List.replicate 57 0), .ok (), .ok ()⟩).1.output_path =
      joinPath "indir" (stemOf "f.ctex" ++ ".unknown") ∧
    joinPath "indir" (stemOf "f.ctex" ++ ".unknown") ≠
      joinPath "" (stemOf "f.ctex" ++ ".unknown") := by
  decide

/-- C6 (amended): on success the output file is the input's stem plus the
chosen extension, placed in the override output directory when a
non-empty override is supplied and otherwise (no override, or an
empty-string override) in the input's parent directory; the creation of
that directory was ensured before the write. -/
theorem output_path_placement (p : PyPath) (d : Option String) (fs : FSInput)
    (content : List Nat) (hopen : fs.openResult = .ok content)
    (hsucc : (convert_ctex_to_image p d fs).1.success = true) :
    ∃ w, (convert_ctex_to_image p d fs).2 = some w ∧
      w.path = (convert_ctex_to_image p d fs).1.output_path ∧
      w.path = joinPath (output_dir_of p d)
        (stemOf p.name ++ format_map (le32 (readFormatBytes content))) ∧
      w.mkdirDir = output_dir_of p d ∧
      fs.mkdirResult = .ok () ∧
      (∀ o, d = some o → o ≠ "" → output_dir_of p d = o) ∧
      (d = none → output_dir_of p d = p.parent) ∧
      (∀ o, d = some o → o = "" → output_dir_of p d = p.parent) := by
  obtain ⟨c2, ho2, hl2, hm2, hw2⟩ := success_inv p d fs hsucc
  rw [hopen] at ho2
  injection ho2 with hc
  subst hc
  rw [convert_eq_of_success p d fs content hopen hl2 hm2 hw2]
  refine ⟨_, rfl, rfl, rfl, rfl, hm2, ?_, ?_, ?_⟩
  · intro o ho hne
    subst ho
    simp [output_dir_of, hne]
  · intro ho
    subst ho
    simp [output_dir_of]
  · intro o ho hne
    subst ho
    subst hne
    simp [output_dir_of]

theorem output_path_placement_witness :
    ∃ w, (convert_ctex_to_image ⟨"indir", "f.ctex"⟩ (some "out")
        ⟨.ok (List.replicate 57 0), .ok (), .ok ()⟩).2 = some w ∧
      w.path = (convert_ctex_to_image ⟨"indir", "f.ctex"⟩ (some "out")
        ⟨.ok (List.replicate 57 0), .ok (), .ok ()⟩).1.output_path ∧
      w.path = joinPath (output_dir_of ⟨"indir", "f.ctex"⟩ (some "out"))
        (stemOf (PyPath.name ⟨"indir", "f.ctex"⟩) ++
          format_map (le32 (readFormatBytes (List.replicate 57 0)))) ∧
      w.mkdirDir = output_dir_of ⟨"indir", "f.ctex"⟩ (some "out") ∧
      (FSInput.mk (.ok (List.replicate 57 0)) (.ok ()) (.ok ())).mkdirResult = .ok () ∧
      (∀ o, (some "out" : Option String) = some o → o ≠ "" →
        output_dir_of ⟨"indir", "f.ctex"⟩ (some "out") = o) ∧
      ((some "out" : Option String) = none →
        output_dir_of ⟨"indir", "f.ctex"⟩ (some "out") = PyPath.parent ⟨"indir", "f.ctex"⟩) ∧
      (∀ o, (some "out" : Option String) = some o → o = "" →
        output_dir_of ⟨"indir", "f.ctex"⟩ (some "out") = PyPath.parent ⟨"indir", "f.ctex"⟩) :=
  output_path_placement _ _ _ (List.replicate 57 0) rfl (by decide)

/-- C7: the discovery walk returns exactly the joined paths of the walked
files whose name, lowercased, ends with `.ctex`; the comparison is
case-insensitive (`.CTEX` and `.Ctex` both match) and an empty tree
yields the empty list. -/
theorem discovery_matches_walk_filter (root : String) (d : Dir) :
    find_ctex_files root d =
      ((walk_entries root d).filter (fun e => pyEndsWith (pyLower e.2) ".ctex")).map
        (fun e => joinPath e.1 e.2) ∧
    pyEndsWith (pyLower "a.CTEX") ".ctex" = true ∧
    pyEndsWith (pyLower "a.Ctex") ".ctex" = true ∧
    pyEndsWith (pyLower "a.png") ".ctex" = false ∧
    find_ctex_files root (Dir.node [] []) = [] := by
  refine ⟨find_eq_filter_aux (sizeOf d) d le_rfl root, by decide, by decide, by decide, ?_⟩
  rw [find_ctex_files]
  simp

/-- C10: the result triple is coherent: success holds exactly when the
output path is non-empty; every failure carries an empty path and a
non-empty message; a success message reports the resolved format name
and the payload byte count. -/
theorem result_triple_invariant (p : PyPath) (d : Option String) (fs : FSInput) :
    ((convert_ctex_to_image p d fs).1.success = true ↔
      (convert_ctex_to_image p d fs).1.output_path ≠ "") ∧
    ((convert_ctex_to_image p d fs).1.success = false →
      (convert_ctex_to_image p d fs).1.output_path = "" ∧
      (convert_ctex_to_image p d fs).1.message ≠ "") ∧
    ((convert_ctex_to_image p d fs).1.success = true →
      ∃ content, fs.openResult = .ok content ∧
        (convert_ctex_to_image p d fs).1.message =
          "Format: " ++ format_name (le32 (readFormatBytes content)) ++ ", Size: " ++
            toString (content.drop 56).length ++ " bytes") := by
  cases ho : fs.openResult with
  | error e =>
    have hc : convert_ctex_to_image p d fs =
        (⟨false, "", "Error processing file: " ++ e⟩, none) := by
      simp [convert_ctex_to_image, convertBody, ho]
    rw [hc]
    refine ⟨by simp, fun _ => ⟨rfl, ne_empty_of_take1 _ 'E' rfl⟩, by simp⟩
  | ok content =>
    by_cases h1 : content.length < 56
    · rw [convert_eq_too_small p d fs content ho h1]
      refine ⟨by simp, fun _ => ⟨rfl, ne_empty_of_take1 _ 'F' rfl⟩, by simp⟩
    · have h2 : ¬ (readFormatBytes content).length < 4 := by
        simp [readFormatBytes]; omega
      by_cases h3 : (content.drop 56).isEmpty
      · have hl56 : content.length = 56 := by
          simp [List.isEmpty_iff, List.drop_eq_nil_iff] at h3
          omega
        rw [convert_eq_empty_payload p d fs content ho hl56]
        refine ⟨by simp, fun _ => ⟨rfl, ne_empty_of_take1 _ 'N' rfl⟩, by simp⟩
      · cases hm : fs.mkdirResult with
        | error e =>
          have hc : convert_ctex_to_image p d fs =
              (⟨false, "", "Error processing file: " ++ e⟩, none) := by
            simp [convert_ctex_to_image, convertBody, ho, h1, h2, h3, hm]
          rw [hc]
          refine ⟨by simp, fun _ => ⟨rfl, ne_empty_of_take1 _ 'E' rfl⟩, by simp⟩
        | ok u =>
          cases hw : fs.writeResult with
          | error e =>
            have hc : convert_ctex_to_image p d fs =
                (⟨false, "", "Error processing file: " ++ e⟩, none) := by
              simp [convert_ctex_to_image, convertBody, ho, h1, h2, h3, hm, hw]
            rw [hc]
            refine ⟨by simp, fun _ => ⟨rfl, ne_empty_of_take1 _ 'E' rfl⟩, by simp⟩
          | ok v =>
            cases u; cases v
            have hlen2 : 56 < content.length := by
              simp [List.isEmpty_iff, List.drop_eq_nil_iff] at h3
              omega
            rw [convert_eq_of_success p d fs content ho hlen2 hm hw]
            refine ⟨?_, by simp, fun _ => ⟨content, rfl, rfl⟩⟩
            simp [output_path_of, joinPath_ne_empty]

theorem result_triple_invariant_witness :
    ((convert_ctex_to_image ⟨"dir", "f.ctex"⟩ none
        ⟨.ok [1], .ok (), .ok ()⟩).1.success = true ↔
      (convert_ctex_to_image ⟨"dir", "f.ctex"⟩ none
        ⟨.ok [1], .ok (), .ok ()⟩).1.output_path ≠ "") ∧
    ((convert_ctex_to_image ⟨"dir", "f.ctex"⟩ none
        ⟨.ok [1], .ok (), .ok ()⟩).1.success = false →
      (convert_ctex_to_image ⟨"dir", "f.ctex"⟩ none
        ⟨.ok [1], .ok (), .ok ()⟩).1.output_path = "" ∧
      (convert_ctex_to_image ⟨"dir", "f.ctex"⟩ none
        ⟨.ok [1], .ok (), .ok ()⟩).1.message ≠ "") ∧
    ((convert_ctex_to_image ⟨"dir", "f.ctex"⟩ none
        ⟨.ok [1], .ok (), .ok ()⟩).1.success = true →
      ∃ content, (FSInput.mk (.ok [1]) (.ok ()) (.ok ())).openResult = .ok content ∧
        (convert_ctex_to_image ⟨"dir", "f.ctex"⟩ none
          ⟨.ok [1], .ok (), .ok ()⟩).1.message =
          "Format: " ++ format_name (le32 (readFormatBytes content)) ++ ", Size: " ++
            toString (content.drop 56).length ++ " bytes") :=
  result_triple_invariant ⟨"dir", "f.ctex"⟩ none ⟨.ok [1], .ok (), .ok ()⟩

end Godotdec
